import Mathlib

/-!
Verification of the debounced connectivity monitor in
`src/connectivity_monitor.py`.

The embedding follows the source closely:

* `Status` models the Python variable `current_status`
  (`None` / `"UP"` / `"DOWN"`, lines 133, 147, 150, 154, 157).
* `tick` is the body of the `while True:` loop, lines 145-159:
  the branch on `is_connected`, the reset / increment of
  `consecutive_failures`, and the guarded LED and log side effects.
* `Emission` records the observable side effects of one loop body:
  `led.on()` (line 148), the "Internet UP" info log (line 149),
  `led.off()` (line 155) and the "Internet DOWN" warning log (line 156).
* `mainLoop` models the whole `try/except/finally` of `main`
  (lines 136-170): each loop iteration either receives a probe result,
  is hit by `KeyboardInterrupt`, or raises an unexpected exception;
  the two exceptional cases leave the `while` loop and run the
  `finally:` block (lines 167-170: `led.off()` then
  `led.restore_default()`).
* `check_internet_connectivity` models lines 102-121: the result of the
  `subprocess.run` call is abstracted by `PingOutcome`.

The failure threshold `CONSECUTIVE_FAILURES` (line 18, value 3) is a
parameter `threshold` of the loop functions so that the spec's
quantification over thresholds can be stated; the concrete-scenario
theorems instantiate it with the source's constant.
-/

/-- `current_status` of the monitoring loop: `unknown` is Python's
`None` (line 133), `up` is `"UP"`, `down` is `"DOWN"`. -/
inductive Status : Type
  | unknown : Status
  | up : Status
  | down : Status
deriving DecidableEq

/-- The mutable loop state of `main`: `consecutive_failures` (line 132)
and `current_status` (line 133). -/
structure DebounceState : Type where
  consecutive_failures : Nat
  current_status : Status
deriving DecidableEq

/-- Initial loop state: `consecutive_failures = 0`,
`current_status = None` (lines 132-133). -/
def initState : DebounceState := ⟨0, Status.unknown⟩

/-- One observable side effect of a loop body: an LED brightness write
or a transition log event (lines 148-149 and 155-156). -/
inductive Emission : Type
  | ledOn : Emission
  | ledOff : Emission
  | logUp : Emission
  | logDown : Emission
deriving DecidableEq

/-- Value of `CONSECUTIVE_FAILURES`, line 18. -/
def CONSECUTIVE_FAILURES : Nat := 3

/-- The loop body for one probe result (lines 145-159).  Returns the
state after the iteration and the list of emitted side effects, in
program order.  The `elif DEBUG:` branch (lines 158-159) only logs at
debug level; it changes no state and touches no LED, so it emits
nothing observable here. -/
def tick (threshold : Nat) (s : DebounceState) (is_connected : Bool) :
    DebounceState × List Emission :=
  if is_connected then
    if s.current_status ≠ Status.up then
      (⟨0, Status.up⟩, [Emission.ledOn, Emission.logUp])
    else
      (⟨0, s.current_status⟩, [])
  else
    if s.consecutive_failures + 1 ≥ threshold then
      if s.current_status ≠ Status.down then
        (⟨s.consecutive_failures + 1, Status.down⟩,
          [Emission.ledOff, Emission.logDown])
      else
        (⟨s.consecutive_failures + 1, s.current_status⟩, [])
    else
      (⟨s.consecutive_failures + 1, s.current_status⟩, [])

/-- The state after one loop body, discarding the emissions. -/
def stepState (threshold : Nat) (s : DebounceState) (b : Bool) :
    DebounceState :=
  (tick threshold s b).1

/-- State after feeding a list of probe results from state `s`. -/
def runState (threshold : Nat) (s : DebounceState) (bs : List Bool) :
    DebounceState :=
  bs.foldl (stepState threshold) s

/-- Feeding a list of probe results: final state and the concatenation
of all emissions, in order. -/
def runTicks (threshold : Nat) (s : DebounceState) :
    List Bool → DebounceState × List Emission
  | [] => (s, [])
  | b :: bs =>
    ((runTicks threshold (tick threshold s b).1 bs).1,
      (tick threshold s b).2 ++
        (runTicks threshold (tick threshold s b).1 bs).2)

/-- What happens inside one iteration of the `while True:` loop:
either `check_internet_connectivity()` returns a boolean, or
`KeyboardInterrupt` is raised, or some other exception is raised. -/
inductive TickInput : Type
  | probe : Bool → TickInput
  | interrupt : TickInput
  | raiseExn : TickInput
deriving DecidableEq

/-- A call made outside the loop body: `led.off()` (line 168) or
`led.restore_default()` (line 169) in the `finally:` block. -/
inductive ShutdownCall : Type
  | ledOff : ShutdownCall
  | restoreDefault : ShutdownCall
deriving DecidableEq

/-- Observable outcome of running `main`'s `try/except/finally` on a
finite schedule of tick inputs. -/
structure RunResult : Type where
  ticksStarted : Nat
  loopEmissions : List Emission
  terminated : Bool
  shutdownCalls : List ShutdownCall
deriving DecidableEq

/-- The `try: while True: ... except KeyboardInterrupt: ...
except Exception: ... finally: ...` of `main` (lines 136-170).
`KeyboardInterrupt` and any unexpected exception both leave the
`while` loop (the `try` wraps the whole loop, line 136) and run the
`finally:` block, which calls `led.off()` then `led.restore_default()`
(lines 168-169).  If the schedule is exhausted the loop is still
running: no termination, no shutdown calls yet. -/
def mainLoop (threshold : Nat) (s : DebounceState) :
    List TickInput → RunResult
  | [] => ⟨0, [], false, []⟩
  | TickInput.probe b :: rest =>
    ⟨(mainLoop threshold (tick threshold s b).1 rest).ticksStarted + 1,
      (tick threshold s b).2 ++
        (mainLoop threshold (tick threshold s b).1 rest).loopEmissions,
      (mainLoop threshold (tick threshold s b).1 rest).terminated,
      (mainLoop threshold (tick threshold s b).1 rest).shutdownCalls⟩
  | TickInput.interrupt :: _ =>
    ⟨1, [], true, [ShutdownCall.ledOff, ShutdownCall.restoreDefault]⟩
  | TickInput.raiseExn :: _ =>
    ⟨1, [], true, [ShutdownCall.ledOff, ShutdownCall.restoreDefault]⟩

/-- `main` from its initial loop state (lines 132-133). -/
def mainRun (threshold : Nat) (inputs : List TickInput) : RunResult :=
  mainLoop threshold initState inputs

/-- Outcome of the `subprocess.run(["ping", ...])` call in
`check_internet_connectivity` (lines 109-114): the process completed
with some return code, or `subprocess.TimeoutExpired` was raised, or
some other exception was raised. -/
inductive PingOutcome : Type
  | completed : Int → PingOutcome
  | timedOut : PingOutcome
  | exn : PingOutcome
deriving DecidableEq

/-- `check_internet_connectivity` (lines 102-121): returns
`result.returncode == 0`; `subprocess.TimeoutExpired` and any other
exception are caught and mapped to `False`. -/
def check_internet_connectivity : PingOutcome → Bool
  | PingOutcome.completed rc => rc == 0
  | PingOutcome.timedOut => false
  | PingOutcome.exn => false

/-- Number of occurrences of the emission `e` in a list of emissions. -/
def countE (e : Emission) : List Emission → Nat
  | [] => 0
  | x :: xs => (if x = e then 1 else 0) + countE e xs

/-- Number of ticks at which the status changes to `target`, over a
list of probe results fed from state `s`. -/
def transitionsTo (target : Status) (threshold : Nat) (s : DebounceState) :
    List Bool → Nat
  | [] => 0
  | b :: bs =>
    (if s.current_status ≠ target ∧
        (stepState threshold s b).current_status = target then 1 else 0) +
      transitionsTo target threshold (stepState threshold s b) bs

/-- The last `n` entries of a probe-result list (the most recent inputs). -/
def lastN (n : Nat) (bs : List Bool) : List Bool :=
  bs.drop (bs.length - n)

/-- Effect of one emission on the externally visible LED brightness:
`ledOn` and `ledOff` overwrite it, log events leave it unchanged.
`none` means no brightness write has been issued yet. -/
def ledWrite (l : Option Bool) (e : Emission) : Option Bool :=
  match e with
  | Emission.ledOn => some true
  | Emission.ledOff => some false
  | Emission.logUp => l
  | Emission.logDown => l

/-- LED brightness after a list of emissions, starting untouched. -/
def ledAfter (es : List Emission) : Option Bool :=
  es.foldl ledWrite none

theorem countE_append (e : Emission) (xs ys : List Emission) :
    countE e (xs ++ ys) = countE e xs + countE e ys := by
  induction xs with
  | nil => simp [countE]
  | cons x xs ih => simp [countE, ih]; omega

theorem runTicks_append (threshold : Nat) :
    ∀ (xs ys : List Bool) (s : DebounceState),
      runTicks threshold s (xs ++ ys) =
        ((runTicks threshold (runTicks threshold s xs).1 ys).1,
          (runTicks threshold s xs).2 ++
            (runTicks threshold (runTicks threshold s xs).1 ys).2)
  | [], ys, s => by simp [runTicks]
  | x :: xs, ys, s => by
    simp only [List.cons_append, runTicks, List.append_eq,
      runTicks_append threshold xs ys, List.append_assoc]

theorem tick_cf (threshold : Nat) (s : DebounceState) (b : Bool) :
    (tick threshold s b).1.consecutive_failures =
      if b then 0 else s.consecutive_failures + 1 := by
  obtain ⟨cf, st⟩ := s
  cases b <;> simp only [tick, Bool.false_eq_true, if_false, if_true] <;>
    split <;> (try split) <;> rfl

/-- C5: with threshold `CONSECUTIVE_FAILURES = 3` and inputs
`[T,T,F,F,F,T]` from the initial state, the emissions after each prefix
show: UP transition at tick 1, no change at ticks 2-4, DOWN transition
at tick 5, UP transition at tick 6; the status trace is
UP, UP, UP, UP, DOWN, UP. -/
theorem C5_scenario_threshold_three :
    (runTicks CONSECUTIVE_FAILURES initState [true]).2 =
      [Emission.ledOn, Emission.logUp] ∧
    (runTicks CONSECUTIVE_FAILURES initState [true, true]).2 =
      [Emission.ledOn, Emission.logUp] ∧
    (runTicks CONSECUTIVE_FAILURES initState [true, true, false]).2 =
      [Emission.ledOn, Emission.logUp] ∧
    (runTicks CONSECUTIVE_FAILURES initState [true, true, false, false]).2 =
      [Emission.ledOn, Emission.logUp] ∧
    (runTicks CONSECUTIVE_FAILURES initState
        [true, true, false, false, false]).2 =
      [Emission.ledOn, Emission.logUp, Emission.ledOff, Emission.logDown] ∧
    (runTicks CONSECUTIVE_FAILURES initState
        [true, true, false, false, false, true]).2 =
      [Emission.ledOn, Emission.logUp, Emission.ledOff, Emission.logDown,
        Emission.ledOn, Emission.logUp] ∧
    (runTicks CONSECUTIVE_FAILURES initState [true]).1.current_status =
      Status.up ∧
    (runTicks CONSECUTIVE_FAILURES initState
        [true, true, false, false]).1.current_status = Status.up ∧
    (runTicks CONSECUTIVE_FAILURES initState
        [true, true, false, false, false]).1.current_status = Status.down ∧
    (runTicks CONSECUTIVE_FAILURES initState
        [true, true, false, false, false, true]).1.current_status =
      Status.up := by
  decide

/-- C7: `check_internet_connectivity` is a total boolean function (it
cannot raise: its type is `PingOutcome → Bool`), and every failure mode
— nonzero ping return code (unreachable target), timeout of the
subprocess, or any other exception — yields `false`. -/
theorem C7_probe_never_raises_failures_false :
    (∀ rc : Int, rc ≠ 0 →
      check_internet_connectivity (PingOutcome.completed rc) = false) ∧
    check_internet_connectivity PingOutcome.timedOut = false ∧
    check_internet_connectivity PingOutcome.exn = false := by
  refine ⟨fun rc h => ?_, rfl, rfl⟩
  simpa [check_internet_connectivity] using h

/-- Concrete instance of `C7_probe_never_raises_failures_false` at
return code 1 (ping reports the target unreachable). -/
theorem C7_witness :
    (1 : Int) ≠ 0 ∧
    check_internet_connectivity (PingOutcome.completed 1) = false :=
  ⟨by decide,
    C7_probe_never_raises_failures_false.1 1 (by decide)⟩

theorem tick_count_ledOn (threshold : Nat) (s : DebounceState) (b : Bool) :
    countE Emission.ledOn (tick threshold s b).2 =
      if s.current_status ≠ Status.up ∧
          (tick threshold s b).1.current_status = Status.up then 1
      else 0 := by
  obtain ⟨cf, st⟩ := s
  cases b <;> cases st <;> simp only [tick] <;>
    split_ifs <;> simp_all [countE]

theorem tick_count_ledOff (threshold : Nat) (s : DebounceState) (b : Bool) :
    countE Emission.ledOff (tick threshold s b).2 =
      if s.current_status ≠ Status.down ∧
          (tick threshold s b).1.current_status = Status.down then 1
      else 0 := by
  obtain ⟨cf, st⟩ := s
  cases b <;> cases st <;> simp only [tick] <;>
    split_ifs <;> simp_all [countE]

theorem countE_ledOn_runTicks (threshold : Nat) :
    ∀ (bs : List Bool) (s : DebounceState),
      countE Emission.ledOn (runTicks threshold s bs).2 =
        transitionsTo Status.up threshold s bs
  | [], _ => rfl
  | b :: bs, s => by
    simp only [runTicks, transitionsTo, countE_append, stepState,
      countE_ledOn_runTicks threshold bs ((tick threshold s b).1),
      tick_count_ledOn]

theorem countE_ledOff_runTicks (threshold : Nat) :
    ∀ (bs : List Bool) (s : DebounceState),
      countE Emission.ledOff (runTicks threshold s bs).2 =
        transitionsTo Status.down threshold s bs
  | [], _ => rfl
  | b :: bs, s => by
    simp only [runTicks, transitionsTo, countE_append, stepState,
      countE_ledOff_runTicks threshold bs ((tick threshold s b).1),
      tick_count_ledOff]

/-- C4: over any input stream, `led.on()` is emitted exactly once per
transition into UP and `led.off()` exactly once per transition into
DOWN — never once per raw probe sample; in particular a `true` while
already UP and a `false` while already DOWN emit nothing at all. -/
theorem C4_emissions_once_per_transition (threshold : Nat)
    (s : DebounceState) (bs : List Bool) :
    countE Emission.ledOn (runTicks threshold s bs).2 =
      transitionsTo Status.up threshold s bs ∧
    countE Emission.ledOff (runTicks threshold s bs).2 =
      transitionsTo Status.down threshold s bs ∧
    (s.current_status = Status.up → (tick threshold s true).2 = []) ∧
    (s.current_status = Status.down → (tick threshold s false).2 = []) := by
  refine ⟨countE_ledOn_runTicks threshold bs s,
    countE_ledOff_runTicks threshold bs s, fun h => ?_, fun h => ?_⟩
  · simp [tick, h]
  · simp only [tick, h]
    split_ifs <;> simp_all

/-- Concrete instance of `C4_emissions_once_per_transition`: a repeated
success while UP and a repeated failure while DOWN emit nothing, and
the emission counts match the transition counts on a sample stream. -/
theorem C4_witness :
    countE Emission.ledOn (runTicks 3 ⟨0, Status.up⟩ [true, true]).2 =
      transitionsTo Status.up 3 ⟨0, Status.up⟩ [true, true] ∧
    (tick 3 ⟨0, Status.up⟩ true).2 = [] ∧
    (tick 3 ⟨5, Status.down⟩ false).2 = [] :=
  ⟨(C4_emissions_once_per_transition 3 ⟨0, Status.up⟩ [true, true]).1,
    (C4_emissions_once_per_transition 3 ⟨0, Status.up⟩ [true, true]).2.2.1
      rfl,
    (C4_emissions_once_per_transition 3 ⟨5, Status.down⟩ []).2.2.2 rfl⟩

/-- C3: a single `true` input resets `consecutive_failures` to 0 in
every state, and if the status was DOWN it emits exactly one
`led.on()` and one UP log event and sets the status to UP — one
success suffices, whatever the failure count was. -/
theorem C3_single_success_recovers (threshold : Nat) (s : DebounceState) :
    (tick threshold s true).1.consecutive_failures = 0 ∧
    (s.current_status = Status.down →
      (tick threshold s true).2 = [Emission.ledOn, Emission.logUp] ∧
      (tick threshold s true).1.current_status = Status.up) := by
  obtain ⟨cf, st⟩ := s
  cases st <;> simp [tick]

/-- Concrete instance of `C3_single_success_recovers`: DOWN with 7
accumulated failures, one success. -/
theorem C3_witness :
    (tick 3 ⟨7, Status.down⟩ true).1.consecutive_failures = 0 ∧
    (tick 3 ⟨7, Status.down⟩ true).2 =
      [Emission.ledOn, Emission.logUp] ∧
    (tick 3 ⟨7, Status.down⟩ true).1.current_status = Status.up :=
  ⟨(C3_single_success_recovers 3 ⟨7, Status.down⟩).1,
    ((C3_single_success_recovers 3 ⟨7, Status.down⟩).2 rfl).1,
    ((C3_single_success_recovers 3 ⟨7, Status.down⟩).2 rfl).2⟩

theorem stepState_keeps_known (threshold : Nat) (s : DebounceState)
    (b : Bool) (h : s.current_status ≠ Status.unknown) :
    (stepState threshold s b).current_status ≠ Status.unknown := by
  obtain ⟨cf, st⟩ := s
  cases b <;> cases st <;> simp only [stepState, tick] <;>
    split_ifs <;> simp_all

theorem runState_keeps_known (threshold : Nat) :
    ∀ (bs : List Bool) (s : DebounceState),
      s.current_status ≠ Status.unknown →
      (runState threshold s bs).current_status ≠ Status.unknown
  | [], _, h => h
  | b :: bs, s, h =>
    runState_keeps_known threshold bs (stepState threshold s b)
      (stepState_keeps_known threshold s b h)

theorem tick_emits_known (threshold : Nat) (s : DebounceState) (b : Bool)
    (h : (tick threshold s b).2 ≠ []) :
    (tick threshold s b).1.current_status ≠ Status.unknown := by
  obtain ⟨cf, st⟩ := s
  cases b <;> cases st <;> simp only [tick] at h ⊢ <;>
    split_ifs at h ⊢ <;> simp_all

/-- C9: after any tick that emits a transition, every state reachable
by feeding further inputs has status UP or DOWN — the status never
returns to UNKNOWN once the first transition has been emitted. -/
theorem C9_never_back_to_unknown (threshold : Nat) (s : DebounceState)
    (b : Bool) (bs : List Bool)
    (h : (tick threshold s b).2 ≠ []) :
    (runState threshold (stepState threshold s b) bs).current_status =
      Status.up ∨
    (runState threshold (stepState threshold s b) bs).current_status =
      Status.down := by
  have h1 := runState_keeps_known threshold bs (stepState threshold s b)
    (tick_emits_known threshold s b h)
  cases hst : (runState threshold
      (stepState threshold s b) bs).current_status with
  | unknown => exact absurd hst h1
  | up => exact Or.inl rfl
  | down => exact Or.inr rfl

/-- Concrete instance of `C9_never_back_to_unknown`: threshold 1, a
first failure emits the DOWN transition, then a success and a failure
follow. -/
theorem C9_witness :
    (runState 1 (stepState 1 initState false)
      [true, false]).current_status = Status.up ∨
    (runState 1 (stepState 1 initState false)
      [true, false]).current_status = Status.down :=
  C9_never_back_to_unknown 1 initState false [true, false] (by decide)

theorem mainLoop_shutdown (threshold : Nat) :
    ∀ (inputs : List TickInput) (s : DebounceState),
      (mainLoop threshold s inputs).terminated = true →
      (mainLoop threshold s inputs).shutdownCalls =
        [ShutdownCall.ledOff, ShutdownCall.restoreDefault]
  | [], _, h => by simp [mainLoop] at h
  | TickInput.probe b :: rest, s, h =>
    mainLoop_shutdown threshold rest ((tick threshold s b).1) h
  | TickInput.interrupt :: _, _, _ => rfl
  | TickInput.raiseExn :: _, _, _ => rfl

/-- C6: on every terminating run of the loop — interrupt or unexpected
exception, in any state — the `finally:` block runs `led.off()` then
`led.restore_default()`, each exactly once and in that order. -/
theorem C6_shutdown_exactly_once_in_order (threshold : Nat)
    (inputs : List TickInput)
    (h : (mainRun threshold inputs).terminated = true) :
    (mainRun threshold inputs).shutdownCalls =
      [ShutdownCall.ledOff, ShutdownCall.restoreDefault] :=
  mainLoop_shutdown threshold inputs initState h

/-- Concrete instance of `C6_shutdown_exactly_once_in_order`: one
failed probe, then an interrupt (state at interrupt time is still
UNKNOWN). -/
theorem C6_witness :
    (mainRun 3 [TickInput.probe false,
      TickInput.interrupt]).terminated = true ∧
    (mainRun 3 [TickInput.probe false,
      TickInput.interrupt]).shutdownCalls =
      [ShutdownCall.ledOff, ShutdownCall.restoreDefault] :=
  ⟨by decide,
    C6_shutdown_exactly_once_in_order 3
      [TickInput.probe false, TickInput.interrupt] (by decide)⟩

/-- Outcome of the whole module: the module-level LED setup
(lines 94-99) either raises — `exit(1)` without entering the loop — or
succeeds, after which `main()` runs. -/
inductive ProgramOutcome : Type
  | exited : Nat → ProgramOutcome
  | ran : RunResult → ProgramOutcome
deriving DecidableEq

/-- Lines 94-99 followed by `main()` (line 173): if `LED(LED_PATH)`
raises, the process exits with code 1 before the loop; otherwise the
monitoring loop runs on the given schedule. -/
def program (ledInitRaises : Bool) (threshold : Nat)
    (inputs : List TickInput) : ProgramOutcome :=
  if ledInitRaises then ProgramOutcome.exited 1
  else ProgramOutcome.ran (mainRun threshold inputs)

/-- C2 as stated is false at a concrete schedule: an unexpected
exception at tick 1, with a successful probe scheduled for tick 2.
The run terminates with only tick 1 started — the loop does not
proceed to the next scheduled tick (`ticksStarted ≠ 2`) and the
scheduled success is never processed (no emissions). -/
theorem C2_counterexample :
    (mainRun CONSECUTIVE_FAILURES
      [TickInput.raiseExn, TickInput.probe true]).terminated = true ∧
    (mainRun CONSECUTIVE_FAILURES
      [TickInput.raiseExn, TickInput.probe true]).ticksStarted = 1 ∧
    ¬ (mainRun CONSECUTIVE_FAILURES
      [TickInput.raiseExn, TickInput.probe true]).ticksStarted = 2 ∧
    (mainRun CONSECUTIVE_FAILURES
      [TickInput.raiseExn, TickInput.probe true]).loopEmissions = [] := by
  decide

theorem mainLoop_exn_fields (threshold : Nat) (rest : List TickInput) :
    ∀ (pre : List Bool) (s : DebounceState),
      (mainLoop threshold s
        (pre.map TickInput.probe ++ TickInput.raiseExn :: rest)).terminated
        = true ∧
      (mainLoop threshold s
        (pre.map TickInput.probe ++
          TickInput.raiseExn :: rest)).ticksStarted = pre.length + 1 ∧
      (mainLoop threshold s
        (pre.map TickInput.probe ++
          TickInput.raiseExn :: rest)).shutdownCalls =
        [ShutdownCall.ledOff, ShutdownCall.restoreDefault]
  | [], s => ⟨rfl, rfl, rfl⟩
  | b :: pre, s => by
    have ih := mainLoop_exn_fields threshold rest pre
      ((tick threshold s b).1)
    refine ⟨ih.1, ?_, ih.2.2⟩
    show (mainLoop threshold ((tick threshold s b).1)
        (pre.map TickInput.probe ++
          TickInput.raiseExn :: rest)).ticksStarted + 1 =
      pre.length + 1 + 1
    rw [ih.2.1]

/-- C2 (amended): an unexpected exception during a tick does not crash
the process — it is caught (the `finally:` shutdown sequence runs,
`led.off()` then `led.restore_default()`) — but the monitoring loop
terminates at that tick: no further scheduled tick ever starts.  Only
LED construction failure exits (code 1) without entering the loop. -/
theorem C2_exception_ends_loop_gracefully (threshold : Nat)
    (pre : List Bool) (rest : List TickInput) :
    (mainRun threshold
      (pre.map TickInput.probe ++ TickInput.raiseExn :: rest)).terminated
      = true ∧
    (mainRun threshold
      (pre.map TickInput.probe ++
        TickInput.raiseExn :: rest)).ticksStarted = pre.length + 1 ∧
    (mainRun threshold
      (pre.map TickInput.probe ++
        TickInput.raiseExn :: rest)).shutdownCalls =
      [ShutdownCall.ledOff, ShutdownCall.restoreDefault] ∧
    (∀ inputs : List TickInput,
      program true threshold inputs = ProgramOutcome.exited 1) :=
  ⟨(mainLoop_exn_fields threshold rest pre initState).1,
    (mainLoop_exn_fields threshold rest pre initState).2.1,
    (mainLoop_exn_fields threshold rest pre initState).2.2,
    fun _ => rfl⟩

theorem runTicks_replicate_false_below (threshold : Nat) :
    ∀ (k j : Nat), j + k < threshold →
      runTicks threshold ⟨j, Status.unknown⟩ (List.replicate k false) =
        ((⟨j + k, Status.unknown⟩ : DebounceState), [])
  | 0, j, _ => by simp [runTicks, List.replicate]
  | k + 1, j, h => by
    have hlt : ¬ (j + 1 ≥ threshold) := by omega
    have ht : tick threshold ⟨j, Status.unknown⟩ false =
        ((⟨j + 1, Status.unknown⟩ : DebounceState), []) := by
      simp [tick, hlt]
    have ih := runTicks_replicate_false_below threshold k (j + 1)
      (by omega)
    rw [List.replicate_succ]
    simp only [runTicks, ht, ih, List.nil_append]
    have e : j + 1 + k = j + (k + 1) := by omega
    rw [e]

/-- C10: DOWN is reachable directly from the initial UNKNOWN state:
`threshold` consecutive failures with no preceding success transition
to DOWN at tick `threshold` and emit exactly one `led.off()` (and its
DOWN log event) — `led.on()` is never called in that run, and no
emission at all occurs before tick `threshold`. -/
theorem C10_down_directly_from_unknown (threshold : Nat)
    (h : 0 < threshold) :
    (runTicks threshold initState
      (List.replicate threshold false)).1.current_status = Status.down ∧
    (runTicks threshold initState (List.replicate threshold false)).2 =
      [Emission.ledOff, Emission.logDown] ∧
    (runTicks threshold initState
      (List.replicate (threshold - 1) false)).2 = [] := by
  have hth : threshold - 1 + 1 = threshold := by omega
  have hpre := runTicks_replicate_false_below threshold (threshold - 1) 0
    (by omega)
  have hsplit := List.replicate_succ' (threshold - 1) false
  rw [hth] at hsplit
  have hpre2 : runTicks threshold ⟨0, Status.unknown⟩
      (List.replicate (threshold - 1) false) =
      ((⟨threshold - 1, Status.unknown⟩ : DebounceState), []) := by
    simpa using hpre
  have hge : threshold - 1 + 1 ≥ threshold := by omega
  have hlast : tick threshold ⟨threshold - 1, Status.unknown⟩ false =
      ((⟨threshold - 1 + 1, Status.down⟩ : DebounceState),
        [Emission.ledOff, Emission.logDown]) := by
    simp [tick, hge]
  have hfull : runTicks threshold initState
      (List.replicate threshold false) =
      ((⟨threshold - 1 + 1, Status.down⟩ : DebounceState),
        [Emission.ledOff, Emission.logDown]) := by
    rw [hsplit]
    show runTicks threshold (⟨0, Status.unknown⟩ : DebounceState)
      (List.replicate (threshold - 1) false ++ [false]) = _
    rw [runTicks_append threshold, hpre2]
    simp [runTicks, hlast]
  refine ⟨?_, ?_, ?_⟩
  · rw [hfull]
  · rw [hfull]
  · show (runTicks threshold (⟨0, Status.unknown⟩ : DebounceState)
      (List.replicate (threshold - 1) false)).2 = []
    rw [hpre2]

/-- Concrete instance of `C10_down_directly_from_unknown` at the
source's threshold 3. -/
theorem C10_witness :
    0 < 3 ∧
    ((runTicks 3 initState (List.replicate 3 false)).1.current_status =
        Status.down ∧
      (runTicks 3 initState (List.replicate 3 false)).2 =
        [Emission.ledOff, Emission.logDown] ∧
      (runTicks 3 initState (List.replicate 2 false)).2 = []) :=
  ⟨by decide, C10_down_directly_from_unknown 3 (by decide)⟩

theorem lastN_succ_append (k : Nat) (p : List Bool) (b : Bool)
    (hk : k ≤ p.length) :
    lastN (k + 1) (p ++ [b]) = lastN k p ++ [b] := by
  have hlen : (p ++ [b]).length = p.length + 1 := by simp
  simp only [lastN, hlen]
  have e : p.length + 1 - (k + 1) = p.length - k := by omega
  rw [e, List.drop_append_of_le_length (by omega)]

theorem lastN_subset_of_le (m n : Nat) (l : List Bool) (h : m ≤ n) :
    lastN m l ⊆ lastN n l := by
  simp only [lastN]
  intro x hx
  have e : l.length - m =
      (l.length - n) + (l.length - m - (l.length - n)) := by omega
  rw [e, ← List.drop_drop] at hx
  exact List.drop_subset _ _ hx

theorem cf_trailing_false (threshold : Nat) (p : List Bool) :
    (runState threshold initState p).consecutive_failures ≤ p.length ∧
    ∀ x ∈ lastN (runState threshold initState p).consecutive_failures p,
      x = false := by
  induction p using List.reverseRecOn with
  | nil =>
    exact ⟨Nat.le_refl 0, by simp [lastN, runState, initState]⟩
  | append_singleton p b ih =>
    obtain ⟨ihlen, ihall⟩ := ih
    have hrs : runState threshold initState (p ++ [b]) =
        stepState threshold (runState threshold initState p) b := by
      simp [runState, List.foldl_append]
    have hcf := tick_cf threshold (runState threshold initState p) b
    rw [hrs]
    cases b with
    | true =>
      refine ⟨?_, ?_⟩
      · simp [stepState, hcf]
      · intro x hx
        simp [stepState, hcf, lastN, List.drop_length] at hx
    | false =>
      have hcf2 : (stepState threshold (runState threshold initState p)
          false).consecutive_failures =
          (runState threshold initState p).consecutive_failures + 1 := by
        simpa [stepState] using hcf
      refine ⟨?_, ?_⟩
      · rw [hcf2]
        simp
        omega
      · intro x hx
        rw [hcf2, lastN_succ_append _ p false ihlen] at hx
        rcases List.mem_append.mp hx with h1 | h2
        · exact ihall x h1
        · simpa using h2

theorem tick_ledOff_mem (threshold : Nat) (s : DebounceState) (b : Bool)
    (h : Emission.ledOff ∈ (tick threshold s b).2) :
    b = false ∧ threshold ≤ s.consecutive_failures + 1 := by
  obtain ⟨cf, st⟩ := s
  cases b <;> cases st <;> simp only [tick] at h <;>
    split_ifs at h <;> simp_all

/-- C1: for every input stream and positive threshold, a DOWN
transition (a `led.off()` emission) at some tick requires that the
input at that tick is `false` and that the last `threshold` inputs —
all consecutive, since the last `true` or since the start — are all
`false`; so DOWN never occurs before `threshold` consecutive failures
have been observed. -/
theorem C1_no_down_before_threshold (threshold : Nat) (p : List Bool)
    (b : Bool) (hpos : 0 < threshold)
    (hdown : Emission.ledOff ∈
      (tick threshold (runState threshold initState p) b).2) :
    b = false ∧ threshold ≤ (p ++ [b]).length ∧
      ∀ x ∈ lastN threshold (p ++ [b]), x = false := by
  obtain ⟨hb, hth⟩ := tick_ledOff_mem threshold
    (runState threshold initState p) b hdown
  obtain ⟨hlen, hall⟩ := cf_trailing_false threshold p
  subst hb
  refine ⟨rfl, by simp; omega, ?_⟩
  intro x hx
  have hx2 := lastN_subset_of_le threshold
    ((runState threshold initState p).consecutive_failures + 1)
    (p ++ [false]) hth hx
  rw [lastN_succ_append _ p false hlen] at hx2
  rcases List.mem_append.mp hx2 with h1 | h2
  · exact hall x h1
  · simpa using h2

/-- Concrete instance of `C1_no_down_before_threshold`: threshold 2,
the second consecutive failure triggers DOWN and the last two inputs
are indeed both `false`. -/
theorem C1_witness :
    0 < 2 ∧
    Emission.ledOff ∈ (tick 2 (runState 2 initState [false]) false).2 ∧
    (false = false ∧ 2 ≤ ([false] ++ [false]).length ∧
      ∀ x ∈ lastN 2 ([false] ++ [false]), x = false) :=
  ⟨by decide, by decide,
    C1_no_down_before_threshold 2 [false] false (by decide) (by decide)⟩

/-- The indicator state is consistent with a status: UP means the last
brightness write was on, DOWN means it was off, UNKNOWN means no
brightness write has been issued. -/
def consistentLed (s : DebounceState) (l : Option Bool) : Prop :=
  (s.current_status = Status.up → l = some true) ∧
  (s.current_status = Status.down → l = some false) ∧
  (s.current_status = Status.unknown → l = none)

theorem tick_consistentLed (threshold : Nat) (s : DebounceState) (b : Bool)
    (l : Option Bool) (h : consistentLed s l) :
    consistentLed (tick threshold s b).1
      (List.foldl ledWrite l (tick threshold s b).2) := by
  obtain ⟨cf, st⟩ := s
  obtain ⟨h1, h2, h3⟩ := h
  cases b <;> cases st <;>
    simp_all [tick, consistentLed, ledWrite] <;>
    split_ifs <;> simp_all [ledWrite]

theorem runTicks_consistentLed (threshold : Nat) :
    ∀ (bs : List Bool) (s : DebounceState) (l : Option Bool),
      consistentLed s l →
      consistentLed (runTicks threshold s bs).1
        (List.foldl ledWrite l (runTicks threshold s bs).2)
  | [], _, _, h => h
  | b :: bs, s, l, h => by
    have h2 := runTicks_consistentLed threshold bs ((tick threshold s b).1)
      (List.foldl ledWrite l (tick threshold s b).2)
      (tick_consistentLed threshold s b l h)
    simpa [runTicks, List.foldl_append] using h2

/-- C8: at every point of a run from the initial state, the LED
brightness last written by the loop body matches the current status:
UP means on was last written, DOWN means off, and while the status is
still UNKNOWN no brightness write has been issued by the loop body. -/
theorem C8_led_matches_status (threshold : Nat) (bs : List Bool) :
    ((runTicks threshold initState bs).1.current_status = Status.up →
      ledAfter (runTicks threshold initState bs).2 = some true) ∧
    ((runTicks threshold initState bs).1.current_status = Status.down →
      ledAfter (runTicks threshold initState bs).2 = some false) ∧
    ((runTicks threshold initState bs).1.current_status = Status.unknown →
      ledAfter (runTicks threshold initState bs).2 = none) :=
  runTicks_consistentLed threshold bs initState none
    ⟨fun h => absurd h (by decide), fun h => absurd h (by decide),
      fun _ => rfl⟩

/-- Concrete instances of `C8_led_matches_status` in all three
statuses: after one success (UP), after three failures (DOWN), and
after a single failure below the threshold (UNKNOWN). -/
theorem C8_witness :
    ledAfter (runTicks 3 initState [true]).2 = some true ∧
    ledAfter (runTicks 3 initState [false, false, false]).2 =
      some false ∧
    ledAfter (runTicks 3 initState [false]).2 = none :=
  ⟨(C8_led_matches_status 3 [true]).1 (by decide),
    (C8_led_matches_status 3 [false, false, false]).2.1 (by decide),
    (C8_led_matches_status 3 [false]).2.2 (by decide)⟩
